import Mathlib

/-!
Verification development for the multicopter cascaded position/velocity
controller of PositionControl.hpp. The repository provides the class header,
whose inline code implements the accessors and the two per-axis-group
integral resets; the bodies of updateState, updateSetpoint,
updateConstraints, generateThrustYawSetpoint and the private helpers
(interfaceMapping, positionController, velocityController) are declared in
the header but their translation unit is not part of the repository, so
those operations are modelled from the specification. Scalars are modelled
as real numbers; a raw float input field that may be NaN (the unset
sentinel) or infinite is modelled by the type FloatF, which distinguishes
finite values from each non-finite possibility.
-/

noncomputable section

/-- Vector of three scalar components, the model of matrix::Vector3f. -/
@[ext]
structure Vec3 where
  x : ℝ
  y : ℝ
  z : ℝ

/-- Euclidean magnitude of the horizontal (x, y) pair of a vector. -/
def normXY (v : Vec3) : ℝ := Real.sqrt (v.x ^ 2 + v.y ^ 2)

/-- Clamp a scalar into the interval from lo to hi. -/
def clampR (x lo hi : ℝ) : ℝ := max lo (min hi x)

/-- Scale the horizontal pair of a vector down proportionally (preserving its
direction and its vertical component) so that its horizontal magnitude does
not exceed m; a vector already within the bound is unchanged. -/
def scaleXY (v : Vec3) (m : ℝ) : Vec3 :=
  if m < normXY v then ⟨v.x * (m / normXY v), v.y * (m / normXY v), v.z⟩ else v

/-- Model of a raw IEEE float field as the controller observes it: a finite
real value, or one of the non-finite possibilities (NaN, which is the unset
sentinel, and the two infinities). -/
inductive FloatF where
  | val (r : ℝ)
  | nan
  | inf
  | ninf

/-- True exactly for a finite value. -/
def FloatF.isFinite : FloatF → Bool
  | .val _ => true
  | _ => false

/-- Numeric reading of a field; a non-finite field reads as zero and is only
ever read behind an isFinite test. -/
def FloatF.toVal : FloatF → ℝ
  | .val r => r
  | _ => 0

/-- Triple of raw float fields. -/
structure Vec3F where
  x : FloatF
  y : FloatF
  z : FloatF

/-- Model of the vehicle_local_position_setpoint_s record as consumed by the
controller: position, velocity, acceleration and thrust triples plus yaw and
yawspeed, every field independently possibly unset (NaN) or otherwise
non-finite. -/
structure SetpointRaw where
  pos : Vec3F
  vel : Vec3F
  acc : Vec3F
  thr : Vec3F
  yaw : FloatF
  yawspeed : FloatF

namespace Controller

/-- Constraints that depend on mode and are lower than the global limits
(PositionControl.hpp lines 57 to 60). -/
structure Constraints where
  tilt_max : ℝ
  vel_max_z_up : ℝ

end Controller

/-- Velocity limits in the z direction (PositionControl.hpp lines 192 to
196). -/
structure DirectionD where
  up : ℝ
  down : ℝ

/-- Thrust limits (PositionControl.hpp lines 198 to 202). -/
structure Limits where
  max : ℝ
  min : ℝ

/-- State of the PositionControl class: the private members of
PositionControl.hpp lines 165 to 208 (without the leading underscore of the
C++ names), the stored raw setpoint record the generate step consumes, and
the per-axis-group saturation flags that the specification has the velocity
loop record for the next anti-windup decision (spec section 4.3 step 7). -/
structure PositionControl where
  pos : Vec3
  vel : Vec3
  vel_dot : Vec3
  acc : Vec3
  yaw : ℝ
  pos_sp : Vec3
  vel_sp : Vec3
  acc_sp : Vec3
  thr_sp : Vec3
  yaw_sp : ℝ
  yawspeed_sp : ℝ
  thr_int : Vec3
  constraints : Controller.Constraints
  Pp : Vec3
  Pv : Vec3
  Iv : Vec3
  Dv : Vec3
  VelMaxXY : ℝ
  VelMaxZ : DirectionD
  ThrustLimit : Limits
  ThrHover : ℝ
  ThrMinPosition : ℝ
  ThrMinStab : ℝ
  tilt_max : ℝ
  skipController : Bool
  sp : SetpointRaw
  satXY : Bool
  satZ : Bool

/-- Set the integral term in xy to 0 (PositionControl.hpp line 120). -/
def resetIntegralXY (s : PositionControl) : PositionControl :=
  { s with thr_int := ⟨0, 0, s.thr_int.z⟩ }

/-- Set the integral term in z to 0 (PositionControl.hpp line 126). -/
def resetIntegralZ (s : PositionControl) : PositionControl :=
  { s with thr_int := ⟨s.thr_int.x, s.thr_int.y, 0⟩ }

/-- Read the thrust set-point member (PositionControl.hpp line 133); as a
non-const C++ member function it receives the object and yields the member
value together with the object state it leaves behind. -/
def getThrustSetpoint (s : PositionControl) : Vec3 × PositionControl :=
  (s.thr_sp, s)

/-- Read the yaw set-point member (PositionControl.hpp line 140). -/
def getYawSetpoint (s : PositionControl) : ℝ × PositionControl :=
  (s.yaw_sp, s)

/-- Read the yawspeed set-point member (PositionControl.hpp line 147). -/
def getYawspeedSetpoint (s : PositionControl) : ℝ × PositionControl :=
  (s.yawspeed_sp, s)

/-- Read the velocity set-point member (PositionControl.hpp line 154). -/
def getVelSp (s : PositionControl) : Vec3 × PositionControl :=
  (s.vel_sp, s)

/-- Read the position set-point member (PositionControl.hpp line 161). -/
def getPosSp (s : PositionControl) : Vec3 × PositionControl :=
  (s.pos_sp, s)

/-- Modelled from the spec: updateState (declared in PositionControl.hpp
line 92, body not in the repository) overwrites the vehicle position,
velocity, velocity derivative and yaw wholesale each cycle (spec section 3,
VehicleState). -/
def updateState (s : PositionControl) (p v vd : Vec3) (y : ℝ) :
    PositionControl :=
  { s with pos := p, vel := v, vel_dot := vd, yaw := y }

/-- Modelled from the spec: updateSetpoint (declared in PositionControl.hpp
line 98, body not in the repository) stores the raw desired-setpoint record
for the next generate step. -/
def updateSetpoint (s : PositionControl) (sp : SetpointRaw) : PositionControl :=
  { s with sp := sp }

/-- Modelled from the spec: updateConstraints (declared in
PositionControl.hpp line 104, body not in the repository) stores the
mode-dependent constraints. -/
def updateConstraints (s : PositionControl) (c : Controller.Constraints) :
    PositionControl :=
  { s with constraints := c }

/-- Resolver output: fully-defined internal targets (spec section 4.1)
together with the per-axis flag telling the position loop whether the axis
is position-controlled. -/
structure Resolved where
  pos_sp : Vec3
  vel_ff : Vec3
  cx : Bool
  cy : Bool
  cz : Bool
  thr : Vec3
  yaw_sp : ℝ
  yawspeed_sp : ℝ

/-- Modelled from the spec: the per-axis rule of the setpoint resolver (spec
section 4.1). A finite position field makes the axis position-controlled
with the velocity field (when finite) as feed-forward; with the position
field unset or otherwise non-finite the axis is velocity-controlled only and
the position target holds the current state; with both unset the axis holds
the current position with zero velocity. The result is the triple of the
position target, the velocity feed-forward and the position-controlled
flag. -/
def resolveAxis (p v : FloatF) (cur : ℝ) : ℝ × ℝ × Bool :=
  if p.isFinite then (p.toVal, if v.isFinite then v.toVal else 0, true)
  else if v.isFinite then (cur, v.toVal, false)
  else (cur, 0, false)

/-- Modelled from the spec: resolution of one raw thrust component for the
direct override path; a non-finite component propagates as unset and
resolves to zero demand (spec section 7). -/
def resolveThr (t : FloatF) : ℝ := if t.isFinite then t.toVal else 0

/-- Modelled from the spec: the private member function interfaceMapping
(declared in PositionControl.hpp line 210, body not in the repository)
reconciles the raw setpoint record with the current state into fully-defined
targets: per-axis position and velocity resolution, thrust resolution for
the direct override path, yaw held at the last commanded yaw when unset, and
yawspeed resolving to zero when unset (spec section 4.1). -/
def interfaceMapping (s : PositionControl) : Resolved :=
  let ax := resolveAxis s.sp.pos.x s.sp.vel.x s.pos.x
  let ay := resolveAxis s.sp.pos.y s.sp.vel.y s.pos.y
  let az := resolveAxis s.sp.pos.z s.sp.vel.z s.pos.z
  { pos_sp := ⟨ax.1, ay.1, az.1⟩
    vel_ff := ⟨ax.2.1, ay.2.1, az.2.1⟩
    cx := ax.2.2
    cy := ay.2.2
    cz := az.2.2
    thr := ⟨resolveThr s.sp.thr.x, resolveThr s.sp.thr.y, resolveThr s.sp.thr.z⟩
    yaw_sp := if s.sp.yaw.isFinite then s.sp.yaw.toVal else s.yaw_sp
    yawspeed_sp := if s.sp.yawspeed.isFinite then s.sp.yawspeed.toVal else 0 }

/-- Modelled from the spec: one axis of the P-position loop, applied only to
a position-controlled axis, with the velocity feed-forward added (spec
section 4.2). -/
def posLoopAxis (ctrl : Bool) (gain posT cur ff : ℝ) : ℝ :=
  (if ctrl then gain * (posT - cur) else 0) + ff

/-- Modelled from the spec: the unclamped velocity demand of the position
loop, per axis (spec section 4.2). -/
def velDemand (s : PositionControl) (r : Resolved) : Vec3 :=
  ⟨posLoopAxis r.cx s.Pp.x r.pos_sp.x s.pos.x r.vel_ff.x,
   posLoopAxis r.cy s.Pp.y r.pos_sp.y s.pos.y r.vel_ff.y,
   posLoopAxis r.cz s.Pp.z r.pos_sp.z s.pos.z r.vel_ff.z⟩

/-- Modelled from the spec: the effective vertical-up speed limit, the mode
constraint never widening the global parameter limit (spec section 3). -/
def velMaxUp (s : PositionControl) : ℝ :=
  min s.constraints.vel_max_z_up s.VelMaxZ.up

/-- Modelled from the spec: the private member function positionController
(declared in PositionControl.hpp line 211, body not in the repository):
P-term plus feed-forward per axis, with the horizontal resultant magnitude
clamped to the configured horizontal maximum and the vertical component
clamped independently to the up and down limits (spec section 4.2); in the
down-positive frame the up limit bounds the negative direction. -/
def positionController (s : PositionControl) (r : Resolved) : Vec3 :=
  let u := velDemand s r
  let h := scaleXY u s.VelMaxXY
  ⟨h.x, h.y, clampR u.z (-(velMaxUp s)) s.VelMaxZ.down⟩

/-- Modelled from the spec: the velocity target entering the velocity loop
is the position-loop output computed from the resolved setpoint (spec
section 2). -/
def velTarget (s : PositionControl) : Vec3 :=
  positionController s (interfaceMapping s)

/-- Modelled from the spec: integral accumulation of the velocity loop with
the anti-windup freeze: each axis group integrates Iv times the velocity
error times dt only while that group had not saturated in the prior cycle
(spec section 4.3 step 3). -/
def thrIntNext (s : PositionControl) (err : Vec3) (dt : ℝ) : Vec3 :=
  ⟨s.thr_int.x + (if s.satXY then 0 else s.Iv.x * err.x * dt),
   s.thr_int.y + (if s.satXY then 0 else s.Iv.y * err.y * dt),
   s.thr_int.z + (if s.satZ then 0 else s.Iv.z * err.z * dt)⟩

/-- Modelled from the spec: the private member function velocityController
(declared in PositionControl.hpp line 212, body not in the repository): per
axis the sum of the proportional term, the freshly accumulated integral term
and the derivative damping on the measured acceleration, with the
hover-thrust offset biasing the vertical axis upward, which in the
down-positive frame is the negative direction (spec section 4.3 steps 1 to
5). Returns the raw thrust demand paired with the updated integral state. -/
def velocityController (s : PositionControl) (target : Vec3) (dt : ℝ) :
    Vec3 × Vec3 :=
  let err : Vec3 := ⟨target.x - s.vel.x, target.y - s.vel.y, target.z - s.vel.z⟩
  let ti := thrIntNext s err dt
  (⟨s.Pv.x * err.x + ti.x + s.Dv.x * (-s.vel_dot.x),
    s.Pv.y * err.y + ti.y + s.Dv.y * (-s.vel_dot.y),
    s.Pv.z * err.z + ti.z + s.Dv.z * (-s.vel_dot.z) - s.ThrHover⟩, ti)

/-- Modelled from the spec: the effective maximum tilt is the mode
constraint capped at pi over two regardless of the configured value (spec
section 3). -/
def tiltEff (s : PositionControl) : ℝ :=
  min s.constraints.tilt_max (Real.pi / 2)

/-- Modelled from the spec: the horizontal saturation step (spec section 4.3
step 6, first part): with an effective tilt bound a strictly below pi over
two, the horizontal magnitude is limited to the magnitude that implies a
tilt of exactly a against the current vertical component (its absolute value
times tan a), the vector being scaled down proportionally; a bound of pi
over two allows any horizontal magnitude. -/
def saturateTilt (a : ℝ) (t : Vec3) : Vec3 :=
  if a < Real.pi / 2 then scaleXY t (|t.z| * Real.tan a) else t

/-- Modelled from the spec: the mode-dependent minimum-thrust floor: the
stabilized floor when the controller is skipped, the position-mode floor
otherwise (spec section 4.3 step 6). -/
def minThr (s : PositionControl) : ℝ :=
  if s.skipController then s.ThrMinStab else s.ThrMinPosition

/-- Modelled from the spec: the vertical saturation step (spec section 4.3
step 6, second part): the upward vertical thrust (the negated z component of
the down-positive frame) is clamped into the interval from the
mode-dependent floor to the maximum thrust limit. -/
def saturateZ (s : PositionControl) (t : Vec3) : Vec3 :=
  ⟨t.x, t.y, -clampR (-t.z) (minThr s) s.ThrustLimit.max⟩

/-- Modelled from the spec: the recorded horizontal saturation flag: the
horizontal demand exceeded the tilt-implied bound (spec section 4.3
step 7). -/
def satXYNext (a : ℝ) (t : Vec3) : Bool :=
  decide (a < Real.pi / 2) && decide (|t.z| * Real.tan a < normXY t)

/-- Modelled from the spec: the recorded vertical saturation flag: the
vertical clamp engaged (spec section 4.3 step 7). -/
def satZNext (s : PositionControl) (t : Vec3) : Bool :=
  decide (-t.z < minThr s) || decide (s.ThrustLimit.max < -t.z)

/-- Modelled from the spec: an elapsed time drives a control step only when
it is finite and strictly positive (spec section 7). -/
def dtOk (d : FloatF) : Prop := d.isFinite = true ∧ 0 < d.toVal

/-- Decidability of the elapsed-time test, so the generate step can branch
on it. -/
instance (d : FloatF) : Decidable (dtOk d) := by
  unfold dtOk; infer_instance

/-- Modelled from the spec: the thrust demand entering the saturation steps:
the resolved raw thrust when the controller is skipped, the velocity-loop
output otherwise (spec sections 4.1 and 4.3). -/
def thrustDemand (s : PositionControl) (dt : ℝ) : Vec3 :=
  if s.skipController then (interfaceMapping s).thr
  else (velocityController s (velTarget s) dt).1

/-- Modelled from the spec: generateThrustYawSetpoint (declared in
PositionControl.hpp line 114, body not in the repository). An invalid
elapsed time is a defined no-op holding every output and the integral term;
otherwise the resolver runs, the position and velocity loops run unless the
skip-controller flag bypasses them, the thrust demand is saturated first
horizontally against the tilt bound and then vertically into the thrust
limits, and the saturation flags are recorded for the next cycle (spec
sections 4.1 to 4.3 and 7). -/
def generateThrustYawSetpoint (s : PositionControl) (d : FloatF) :
    PositionControl :=
  if dtOk d then
    let r := interfaceMapping s
    let demand := thrustDemand s d.toVal
    let a := tiltEff s
    let mid := saturateTilt a demand
    { s with
      pos_sp := r.pos_sp
      vel_sp := if s.skipController then r.vel_ff else velTarget s
      thr_sp := saturateZ s mid
      yaw_sp := r.yaw_sp
      yawspeed_sp := r.yawspeed_sp
      thr_int := if s.skipController then s.thr_int
                 else (velocityController s (velTarget s) d.toVal).2
      satXY := satXYNext a demand
      satZ := satZNext s mid }
  else s

/-- Claim predicate: a thrust vector implies a tilt angle of at most the
bound a, the bound itself capped at pi over two: for an effective bound
below pi over two the horizontal magnitude is at most tan of the bound times
the vertical magnitude; a configured bound of at least pi over two allows
any tilt, every physical tilt being below pi over two. -/
def tiltOk (a : ℝ) (t : Vec3) : Prop :=
  normXY t ≤ Real.tan (min a (Real.pi / 2)) * |t.z| ∨ Real.pi / 2 ≤ a

/-- Concrete controller state used by the closed witnesses and
counterexamples: zeroed dynamic members, an all-unset raw setpoint, and
benign limits. -/
def spUnset : SetpointRaw :=
  ⟨⟨.nan, .nan, .nan⟩, ⟨.nan, .nan, .nan⟩, ⟨.nan, .nan, .nan⟩,
   ⟨.nan, .nan, .nan⟩, .nan, .nan⟩

/-- Baseline concrete state for witnesses. -/
def sEx : PositionControl where
  pos := ⟨0, 0, 0⟩
  vel := ⟨0, 0, 0⟩
  vel_dot := ⟨0, 0, 0⟩
  acc := ⟨0, 0, 0⟩
  yaw := 0
  pos_sp := ⟨0, 0, 0⟩
  vel_sp := ⟨0, 0, 0⟩
  acc_sp := ⟨0, 0, 0⟩
  thr_sp := ⟨0, 0, 0⟩
  yaw_sp := 0
  yawspeed_sp := 0
  thr_int := ⟨0, 0, 0⟩
  constraints := ⟨Real.pi / 4, 10⟩
  Pp := ⟨1, 1, 1⟩
  Pv := ⟨1, 1, 1⟩
  Iv := ⟨1, 1, 1⟩
  Dv := ⟨0, 0, 0⟩
  VelMaxXY := 10
  VelMaxZ := ⟨10, 10⟩
  ThrustLimit := ⟨1, 1/20⟩
  ThrHover := 1/2
  ThrMinPosition := 1/10
  ThrMinStab := 1/10
  tilt_max := 3/2
  skipController := false
  sp := spUnset
  satXY := false
  satZ := false

/-- Equivalence of two raw float fields as the resolver observes them: both
non-finite (unset or otherwise), or both the same finite value. -/
def FloatF.equiv (a b : FloatF) : Prop :=
  (a.isFinite = false ∧ b.isFinite = false) ∨
  ∃ r, a = FloatF.val r ∧ b = FloatF.val r

/-- Componentwise field equivalence of raw triples. -/
def Vec3F.equiv (a b : Vec3F) : Prop :=
  FloatF.equiv a.x b.x ∧ FloatF.equiv a.y b.y ∧ FloatF.equiv a.z b.z

/-- Fieldwise equivalence of raw setpoint records: each field is either
non-finite in both or the same finite value in both. -/
def SetpointRaw.equiv (a b : SetpointRaw) : Prop :=
  Vec3F.equiv a.pos b.pos ∧ Vec3F.equiv a.vel b.vel ∧
  Vec3F.equiv a.acc b.acc ∧ Vec3F.equiv a.thr b.thr ∧
  FloatF.equiv a.yaw b.yaw ∧ FloatF.equiv a.yawspeed b.yawspeed

/-- Raw setpoint record with one positive-infinity field among the unset
ones, for the C8 witness. -/
def spInfX : SetpointRaw := { spUnset with pos := ⟨.inf, .nan, .nan⟩ }

/-- Concrete skip-mode state for the C1 counterexample: a raw thrust demand
of (2, 0, -3) with tilt bound pi over four; the vertical clamp shrinks the
vertical component after the horizontal step. -/
def sC1 : PositionControl :=
  { sEx with skipController := true,
             sp := { spUnset with thr := ⟨.val 2, .val 0, .val (-3)⟩ } }

/-- Concrete state for the C3 counterexample: the z axis has both a
position setpoint (one meter, against current zero) and a velocity
feed-forward of one, with wide velocity limits. -/
def sC3 : PositionControl :=
  { sEx with sp := { spUnset with pos := ⟨.nan, .nan, .val 1⟩,
                                  vel := ⟨.nan, .nan, .val 1⟩ } }

/-- Concrete state for the C3 witness: downward velocity cap two, velocity
feed-forward five, position setpoint one meter below. -/
def sC3w : PositionControl :=
  { sEx with VelMaxZ := ⟨10, 2⟩,
             sp := { spUnset with pos := ⟨.nan, .nan, .val 1⟩,
                                  vel := ⟨.nan, .nan, .val 5⟩ } }

/-- Horizontal magnitude is nonnegative. -/
lemma normXY_nonneg (v : Vec3) : 0 ≤ normXY v := Real.sqrt_nonneg _

/-- Horizontal magnitude of a horizontally scaled vector. -/
lemma normXY_mul_right (v : Vec3) (k : ℝ) :
    normXY ⟨v.x * k, v.y * k, v.z⟩ = normXY v * |k| := by
  unfold normXY
  have h : (v.x * k) ^ 2 + (v.y * k) ^ 2 = (v.x ^ 2 + v.y ^ 2) * k ^ 2 := by
    ring
  rw [h, Real.sqrt_mul (by positivity), Real.sqrt_sq_eq_abs]

/-- Horizontal scaling preserves the vertical component. -/
lemma scaleXY_z (v : Vec3) (m : ℝ) : (scaleXY v m).z = v.z := by
  unfold scaleXY; split <;> rfl

/-- Horizontal scaling enforces the magnitude bound. -/
lemma scaleXY_norm_le (v : Vec3) (m : ℝ) (hm : 0 ≤ m) :
    normXY (scaleXY v m) ≤ m := by
  unfold scaleXY
  split
  next h =>
    have hn : 0 < normXY v := lt_of_le_of_lt hm h
    rw [normXY_mul_right v (m / normXY v),
        abs_of_nonneg (div_nonneg hm hn.le)]
    have hc : normXY v * (m / normXY v) = m := by
      field_simp
    exact le_of_eq hc
  next h => exact le_of_not_lt h

/-- Horizontal scaling multiplies both horizontal components by one common
factor between zero and one and keeps the vertical component. -/
lemma scaleXY_factor (v : Vec3) (m : ℝ) (hm : 0 ≤ m) :
    ∃ k, 0 ≤ k ∧ k ≤ 1 ∧ scaleXY v m = ⟨k * v.x, k * v.y, v.z⟩ := by
  unfold scaleXY
  split
  next h =>
    have hn : 0 < normXY v := lt_of_le_of_lt hm h
    refine ⟨m / normXY v, div_nonneg hm hn.le, (div_le_one hn).2 h.le, ?_⟩
    simp [mul_comm]
  next h => exact ⟨1, zero_le_one, le_refl 1, by simp⟩

/-- Lower bound of the scalar clamp. -/
lemma clampR_lo (x lo hi : ℝ) : lo ≤ clampR x lo hi := le_max_left _ _

/-- Upper bound of the scalar clamp for a nonempty interval. -/
lemma clampR_hi (x lo hi : ℝ) (h : lo ≤ hi) : clampR x lo hi ≤ hi :=
  max_le h (min_le_left _ _)

/-- Clamping a value at or above the upper bound yields the upper bound. -/
lemma clampR_eq_hi (x lo hi : ℝ) (hx : hi ≤ x) (h : lo ≤ hi) :
    clampR x lo hi = hi := by
  unfold clampR; rw [min_eq_left hx, max_eq_right h]

/-- C9: the integral resets act per axis group and independently:
resetIntegralXY zeroes exactly the two horizontal components of the
thrust-integral term and resetIntegralZ exactly the vertical one, each
leaving every other part of the controller state unchanged. -/
theorem C9_integral_resets (s : PositionControl) :
    (resetIntegralXY s).thr_int.x = 0 ∧
    (resetIntegralXY s).thr_int.y = 0 ∧
    (resetIntegralXY s).thr_int.z = s.thr_int.z ∧
    resetIntegralXY s = { s with thr_int := ⟨0, 0, s.thr_int.z⟩ } ∧
    (resetIntegralZ s).thr_int.z = 0 ∧
    (resetIntegralZ s).thr_int.x = s.thr_int.x ∧
    (resetIntegralZ s).thr_int.y = s.thr_int.y ∧
    resetIntegralZ s = { s with thr_int := ⟨s.thr_int.x, s.thr_int.y, 0⟩ } :=
  ⟨rfl, rfl, rfl, rfl, rfl, rfl, rfl, rfl⟩

/-- C10: every read accessor returns the corresponding internal member and
leaves the controller state unchanged, so accessor calls between two
generate steps return identical values in any order. -/
theorem C10_accessors_pure (s : PositionControl) :
    getThrustSetpoint s = (s.thr_sp, s) ∧
    getYawSetpoint s = (s.yaw_sp, s) ∧
    getYawspeedSetpoint s = (s.yawspeed_sp, s) ∧
    getVelSp s = (s.vel_sp, s) ∧
    getPosSp s = (s.pos_sp, s) ∧
    (getThrustSetpoint (getYawSetpoint s).2).1 = (getThrustSetpoint s).1 ∧
    (getYawSetpoint (getThrustSetpoint s).2).1 = (getYawSetpoint s).1 :=
  ⟨rfl, rfl, rfl, rfl, rfl, rfl, rfl⟩

/-- C5: an elapsed time that is nonpositive or non-finite makes the generate
step a defined no-op: every exposed output and the integral term equal the
previous values, and the whole state is unchanged. -/
theorem C5_invalid_dt_noop (s : PositionControl) (d : FloatF)
    (h : ¬ dtOk d) :
    (generateThrustYawSetpoint s d).thr_sp = s.thr_sp ∧
    (generateThrustYawSetpoint s d).yaw_sp = s.yaw_sp ∧
    (generateThrustYawSetpoint s d).yawspeed_sp = s.yawspeed_sp ∧
    (generateThrustYawSetpoint s d).vel_sp = s.vel_sp ∧
    (generateThrustYawSetpoint s d).pos_sp = s.pos_sp ∧
    (generateThrustYawSetpoint s d).thr_int = s.thr_int ∧
    generateThrustYawSetpoint s d = s := by
  have hg : generateThrustYawSetpoint s d = s := by
    unfold generateThrustYawSetpoint
    exact if_neg h
  rw [hg]
  exact ⟨rfl, rfl, rfl, rfl, rfl, rfl, rfl⟩

/-- Witness for C5 at the spec scenario dt equal to minus one hundredth. -/
theorem C5_witness :
    ¬ dtOk (FloatF.val (-(1/100))) ∧
    generateThrustYawSetpoint sEx (FloatF.val (-(1/100))) = sEx := by
  have h : ¬ dtOk (FloatF.val (-(1/100))) := by
    rintro ⟨-, h2⟩
    rw [show (FloatF.val (-(1/100))).toVal = -(1/100) from rfl] at h2
    norm_num at h2
  exact ⟨h, (C5_invalid_dt_noop sEx _ h).2.2.2.2.2.2⟩

/-- C4: during the generate step the persistent thrust-integral term of an
axis group is frozen while that group was saturated in the prior cycle, and
integration resumes (accumulating Iv times the velocity error times dt) once
the group is no longer saturated, the loops not being skipped and the
elapsed time being valid. -/
theorem C4_anti_windup (s : PositionControl) (d : FloatF) :
    (s.satXY = true →
      (generateThrustYawSetpoint s d).thr_int.x = s.thr_int.x ∧
      (generateThrustYawSetpoint s d).thr_int.y = s.thr_int.y) ∧
    (s.satZ = true →
      (generateThrustYawSetpoint s d).thr_int.z = s.thr_int.z) ∧
    (s.satXY = false → s.skipController = false → dtOk d →
      (generateThrustYawSetpoint s d).thr_int.x
          = s.thr_int.x + s.Iv.x * ((velTarget s).x - s.vel.x) * d.toVal ∧
      (generateThrustYawSetpoint s d).thr_int.y
          = s.thr_int.y + s.Iv.y * ((velTarget s).y - s.vel.y) * d.toVal) ∧
    (s.satZ = false → s.skipController = false → dtOk d →
      (generateThrustYawSetpoint s d).thr_int.z
          = s.thr_int.z + s.Iv.z * ((velTarget s).z - s.vel.z) * d.toVal) := by
  by_cases hd : dtOk d
  · by_cases hs : s.skipController
    · refine ⟨fun _ => ⟨?_, ?_⟩, fun _ => ?_, fun _ hns => ?_, fun _ hns => ?_⟩ <;>
        simp [generateThrustYawSetpoint, hd, hs] at *
    · refine ⟨fun hx => ⟨?_, ?_⟩, fun hz => ?_,
        fun hx _ _ => ⟨?_, ?_⟩, fun hz _ _ => ?_⟩ <;>
        simp [generateThrustYawSetpoint, hd, hs, velocityController,
          thrIntNext, *]
  · refine ⟨fun _ => ⟨?_, ?_⟩, fun _ => ?_, fun _ _ h => absurd h hd,
      fun _ _ h => absurd h hd⟩ <;>
      simp [generateThrustYawSetpoint, hd]

/-- C6: an axis whose raw position setpoint is the NaN unset sentinel is
velocity-controlled only: the resolver marks it not position-controlled, its
feed-forward is the supplied velocity value or zero when that too is unset,
and the position loop contributes zero so that the internal velocity demand
of the axis equals the feed-forward. -/
theorem C6_unset_position_axis (s : PositionControl) :
    (s.sp.pos.x = FloatF.nan →
      (interfaceMapping s).cx = false ∧
      (interfaceMapping s).vel_ff.x
          = (if s.sp.vel.x.isFinite then s.sp.vel.x.toVal else 0) ∧
      (velDemand s (interfaceMapping s)).x = (interfaceMapping s).vel_ff.x) ∧
    (s.sp.pos.y = FloatF.nan →
      (interfaceMapping s).cy = false ∧
      (interfaceMapping s).vel_ff.y
          = (if s.sp.vel.y.isFinite then s.sp.vel.y.toVal else 0) ∧
      (velDemand s (interfaceMapping s)).y = (interfaceMapping s).vel_ff.y) ∧
    (s.sp.pos.z = FloatF.nan →
      (interfaceMapping s).cz = false ∧
      (interfaceMapping s).vel_ff.z
          = (if s.sp.vel.z.isFinite then s.sp.vel.z.toVal else 0) ∧
      (velDemand s (interfaceMapping s)).z = (interfaceMapping s).vel_ff.z) := by
  refine ⟨fun hx => ?_, fun hy => ?_, fun hz => ?_⟩
  · cases hv : s.sp.vel.x <;>
      simp [interfaceMapping, resolveAxis, velDemand, posLoopAxis, hx, hv,
        FloatF.isFinite, FloatF.toVal]
  · cases hv : s.sp.vel.y <;>
      simp [interfaceMapping, resolveAxis, velDemand, posLoopAxis, hy, hv,
        FloatF.isFinite, FloatF.toVal]
  · cases hv : s.sp.vel.z <;>
      simp [interfaceMapping, resolveAxis, velDemand, posLoopAxis, hz, hv,
        FloatF.isFinite, FloatF.toVal]

/-- C7: with the skip-controller flag active the generate step bypasses both
loops: the thrust setpoint is the resolved raw thrust put through the tilt
and vertical saturation only, the integral term is untouched, and the
resolver passes a finite raw thrust component through unchanged. -/
theorem C7_skip_bypass (s : PositionControl) (d : FloatF) :
    (s.skipController = true → dtOk d →
      (generateThrustYawSetpoint s d).thr_sp
          = saturateZ s (saturateTilt (tiltEff s) (interfaceMapping s).thr) ∧
      (generateThrustYawSetpoint s d).thr_int = s.thr_int) ∧
    (s.sp.thr.x.isFinite = true → (interfaceMapping s).thr.x = s.sp.thr.x.toVal) ∧
    (s.sp.thr.y.isFinite = true → (interfaceMapping s).thr.y = s.sp.thr.y.toVal) ∧
    (s.sp.thr.z.isFinite = true → (interfaceMapping s).thr.z = s.sp.thr.z.toVal) := by
  refine ⟨fun hs hd => ⟨?_, ?_⟩, fun h => ?_, fun h => ?_, fun h => ?_⟩
  · simp [generateThrustYawSetpoint, hd, thrustDemand, hs]
  · simp [generateThrustYawSetpoint, hd, hs]
  · simp [interfaceMapping, resolveThr, h]
  · simp [interfaceMapping, resolveThr, h]
  · simp [interfaceMapping, resolveThr, h]

/-- C2: after a valid generate step the vertical component of the resolved
thrust (in the down-positive frame the upward thrust is the negated z
component) lies within the configured bounds: at least the mode-dependent
floor (position-mode floor when the controller is not skipped, stabilized
floor otherwise, which is what minThr selects) and at most the maximum
thrust limit, provided the floor does not exceed the maximum. -/
theorem C2_vertical_thrust_bounds (s : PositionControl) (d : FloatF)
    (hd : dtOk d) (hlim : minThr s ≤ s.ThrustLimit.max) :
    minThr s ≤ -(generateThrustYawSetpoint s d).thr_sp.z ∧
    -(generateThrustYawSetpoint s d).thr_sp.z ≤ s.ThrustLimit.max := by
  have h : (generateThrustYawSetpoint s d).thr_sp
      = saturateZ s (saturateTilt (tiltEff s) (thrustDemand s d.toVal)) := by
    simp [generateThrustYawSetpoint, hd]
  rw [h]
  unfold saturateZ
  simp only [neg_neg]
  exact ⟨clampR_lo _ _ _, clampR_hi _ _ _ hlim⟩

/-- Witness for C2 at the baseline state and one hundredth of a second. -/
theorem C2_witness :
    dtOk (FloatF.val (1/100)) ∧ minThr sEx ≤ sEx.ThrustLimit.max ∧
    (minThr sEx ≤ -(generateThrustYawSetpoint sEx (FloatF.val (1/100))).thr_sp.z ∧
     -(generateThrustYawSetpoint sEx (FloatF.val (1/100))).thr_sp.z
        ≤ sEx.ThrustLimit.max) := by
  have h1 : dtOk (FloatF.val (1/100)) := by
    refine ⟨rfl, ?_⟩
    rw [show (FloatF.val (1/100)).toVal = 1/100 from rfl]
    norm_num
  have h2 : minThr sEx ≤ sEx.ThrustLimit.max := by
    simp [minThr, sEx]
    norm_num
  exact ⟨h1, h2, C2_vertical_thrust_bounds sEx _ h1 h2⟩

/-- Two fields that are both non-finite are equivalent. -/
lemma FloatF.equiv_of_not_finite {a b : FloatF} (ha : a.isFinite = false)
    (hb : b.isFinite = false) : FloatF.equiv a b := Or.inl ⟨ha, hb⟩

/-- Equivalent fields agree on finiteness and on the numeric reading. -/
lemma FloatF.equiv_parts {a b : FloatF} (h : FloatF.equiv a b) :
    a.isFinite = b.isFinite ∧ a.toVal = b.toVal := by
  rcases h with ⟨h1, h2⟩ | ⟨r, rfl, rfl⟩
  · cases a <;> cases b <;>
      simp_all [FloatF.isFinite, FloatF.toVal]
  · exact ⟨rfl, rfl⟩

/-- The per-axis resolver sees fields only through finiteness and value. -/
lemma resolveAxis_congr {p q v w : FloatF} (hp : FloatF.equiv p q)
    (hv : FloatF.equiv v w) (cur : ℝ) :
    resolveAxis p v cur = resolveAxis q w cur := by
  obtain ⟨hpf, hpv⟩ := FloatF.equiv_parts hp
  obtain ⟨hvf, hvv⟩ := FloatF.equiv_parts hv
  unfold resolveAxis
  rw [hpf, hpv, hvf, hvv]

/-- The thrust resolver sees a field only through finiteness and value. -/
lemma resolveThr_congr {a b : FloatF} (h : FloatF.equiv a b) :
    resolveThr a = resolveThr b := by
  obtain ⟨hf, hv⟩ := FloatF.equiv_parts h
  unfold resolveThr
  rw [hf, hv]

/-- The whole resolver maps equivalent raw setpoints identically. -/
lemma interfaceMapping_sp_congr (s : PositionControl) {a b : SetpointRaw}
    (h : SetpointRaw.equiv a b) :
    interfaceMapping { s with sp := a } = interfaceMapping { s with sp := b } := by
  obtain ⟨⟨hpx, hpy, hpz⟩, ⟨hvx, hvy, hvz⟩, -, ⟨htx, hty, htz⟩, hyw, hys⟩ := h
  unfold interfaceMapping
  simp only [resolveAxis_congr hpx hvx, resolveAxis_congr hpy hvy,
    resolveAxis_congr hpz hvz, resolveThr_congr htx, resolveThr_congr hty,
    resolveThr_congr htz, (FloatF.equiv_parts hyw).1,
    (FloatF.equiv_parts hyw).2, (FloatF.equiv_parts hys).1,
    (FloatF.equiv_parts hys).2]

/-- C8: setpoint fields that are non-finite but not the NaN sentinel are
treated identically to the sentinel: replacing any fields by equivalent ones
(same finite value, or non-finite of any kind in both) leaves the resolver
output and every exposed output of the generate step unchanged; every
output is a defined real value. -/
theorem C8_nonfinite_fields_as_unset (s : PositionControl) (d : FloatF)
    (a b : SetpointRaw) (h : SetpointRaw.equiv a b) :
    interfaceMapping { s with sp := a } = interfaceMapping { s with sp := b } ∧
    (generateThrustYawSetpoint { s with sp := a } d).thr_sp
        = (generateThrustYawSetpoint { s with sp := b } d).thr_sp ∧
    (generateThrustYawSetpoint { s with sp := a } d).yaw_sp
        = (generateThrustYawSetpoint { s with sp := b } d).yaw_sp ∧
    (generateThrustYawSetpoint { s with sp := a } d).yawspeed_sp
        = (generateThrustYawSetpoint { s with sp := b } d).yawspeed_sp ∧
    (generateThrustYawSetpoint { s with sp := a } d).vel_sp
        = (generateThrustYawSetpoint { s with sp := b } d).vel_sp ∧
    (generateThrustYawSetpoint { s with sp := a } d).pos_sp
        = (generateThrustYawSetpoint { s with sp := b } d).pos_sp ∧
    (generateThrustYawSetpoint { s with sp := a } d).thr_int
        = (generateThrustYawSetpoint { s with sp := b } d).thr_int := by
  have him := interfaceMapping_sp_congr s h
  refine ⟨him, ?_, ?_, ?_, ?_, ?_, ?_⟩ <;>
  · by_cases hd : dtOk d
    · simp [generateThrustYawSetpoint, hd, thrustDemand, velTarget,
        positionController, velDemand, velocityController, thrIntNext,
        saturateZ, minThr, saturateTilt, tiltEff, satXYNext, satZNext,
        velMaxUp, him]
    · simp [generateThrustYawSetpoint, hd]

/-- Witness for C8: an infinity in the position x field resolves exactly as
the NaN sentinel does. -/
theorem C8_witness :
    SetpointRaw.equiv spInfX spUnset ∧
    interfaceMapping { sEx with sp := spInfX }
        = interfaceMapping { sEx with sp := spUnset } := by
  have heq : SetpointRaw.equiv spInfX spUnset := by
    refine ⟨⟨?_, ?_, ?_⟩, ⟨?_, ?_, ?_⟩, ⟨?_, ?_, ?_⟩, ⟨?_, ?_, ?_⟩, ?_, ?_⟩ <;>
      exact FloatF.equiv_of_not_finite rfl rfl
  exact ⟨heq,
    (C8_nonfinite_fields_as_unset sEx (FloatF.val 1) spInfX spUnset heq).1⟩

/-- Elapsed time of one second, valid. -/
lemma dtOk_one : dtOk (FloatF.val 1) := by
  refine ⟨rfl, ?_⟩
  rw [show (FloatF.val 1).toVal = 1 from rfl]
  norm_num

/-- Horizontal magnitude of a vector with components two and zero. -/
lemma normXY_two_zero (z : ℝ) : normXY ⟨2, 0, z⟩ = 2 := by
  unfold normXY
  rw [show ((2:ℝ) ^ 2 + 0 ^ 2) = 2 ^ 2 by norm_num]
  exact Real.sqrt_sq (by norm_num)

/-- C1 counterexample: at the concrete state sC1 the spec order of the
saturation steps (horizontal tilt clamp first, vertical clamp second) lets
the vertical clamp shrink the vertical component afterwards, so the final
thrust (2, 0, -1) implies a tilt beyond the bound pi over four. -/
theorem C1_counterexample :
    (generateThrustYawSetpoint sC1 (FloatF.val 1)).thr_sp = ⟨2, 0, -1⟩ ∧
    ¬ tiltOk sC1.constraints.tilt_max
        (generateThrustYawSetpoint sC1 (FloatF.val 1)).thr_sp := by
  have hd := dtOk_one
  have hq : Real.pi / 4 < Real.pi / 2 := by linarith [Real.pi_pos]
  have htd : thrustDemand sC1 ((FloatF.val 1).toVal) = ⟨2, 0, -3⟩ := by
    simp [thrustDemand, sC1, sEx, interfaceMapping, resolveThr, spUnset,
      FloatF.isFinite, FloatF.toVal]
  have heff : tiltEff sC1 = Real.pi / 4 := by
    show min (Real.pi / 4) (Real.pi / 2) = Real.pi / 4
    exact min_eq_left (by linarith [Real.pi_pos])
  have habs3 : |(-3:ℝ)| = 3 := by
    rw [abs_of_nonpos (by norm_num)]
    norm_num
  have htilt : saturateTilt (Real.pi / 4) ⟨2, 0, -3⟩ = ⟨2, 0, -3⟩ := by
    unfold saturateTilt
    rw [if_pos hq]
    unfold scaleXY
    rw [if_neg]
    rw [normXY_two_zero]
    show ¬ (|(-3:ℝ)| * Real.tan (Real.pi / 4) < 2)
    rw [habs3, Real.tan_pi_div_four]
    norm_num
  have hsatz : saturateZ sC1 ⟨2, 0, -3⟩ = ⟨2, 0, -1⟩ := by
    unfold saturateZ minThr clampR
    simp [sC1, sEx]
    norm_num
  have hthr : (generateThrustYawSetpoint sC1 (FloatF.val 1)).thr_sp
      = ⟨2, 0, -1⟩ := by
    have h0 : (generateThrustYawSetpoint sC1 (FloatF.val 1)).thr_sp
        = saturateZ sC1 (saturateTilt (tiltEff sC1)
            (thrustDemand sC1 ((FloatF.val 1).toVal))) := by
      simp [generateThrustYawSetpoint, hd]
    rw [h0, htd, heff, htilt, hsatz]
  refine ⟨hthr, ?_⟩
  rw [hthr]
  show ¬ tiltOk (Real.pi / 4) ⟨2, 0, -1⟩
  unfold tiltOk
  rintro (h | h)
  · rw [normXY_two_zero, min_eq_left (by linarith [Real.pi_pos]),
      Real.tan_pi_div_four] at h
    rw [show |(⟨2, 0, -1⟩ : Vec3).z| = 1 by
      rw [show (⟨2, 0, -1⟩ : Vec3).z = -1 from rfl,
        abs_of_nonpos (by norm_num)]; norm_num] at h
    norm_num at h
  · linarith [Real.pi_pos]


/-- C1 (amended): with a valid elapsed time and a nonnegative configured
tilt bound, the horizontal saturation step bounds the horizontal magnitude
by tan of the effective tilt (the configured bound capped at pi over two)
times the vertical component entering that step, scaling the horizontal
pair by one common factor between zero and one and preserving the vertical
component; the final output keeps exactly the clamped horizontal
components, and whenever the subsequent vertical clamp leaves the vertical
component unchanged the final thrust satisfies the tilt bound. -/
theorem C1_tilt_saturation (s : PositionControl) (d : FloatF)
    (ht : 0 ≤ s.constraints.tilt_max) (hd : dtOk d) :
    (normXY (saturateTilt (tiltEff s) (thrustDemand s d.toVal))
        ≤ Real.tan (tiltEff s)
          * |(saturateTilt (tiltEff s) (thrustDemand s d.toVal)).z| ∨
      Real.pi / 2 ≤ s.constraints.tilt_max) ∧
    (∃ k, 0 ≤ k ∧ k ≤ 1 ∧
      saturateTilt (tiltEff s) (thrustDemand s d.toVal)
          = ⟨k * (thrustDemand s d.toVal).x, k * (thrustDemand s d.toVal).y,
             (thrustDemand s d.toVal).z⟩) ∧
    (generateThrustYawSetpoint s d).thr_sp.x
        = (saturateTilt (tiltEff s) (thrustDemand s d.toVal)).x ∧
    (generateThrustYawSetpoint s d).thr_sp.y
        = (saturateTilt (tiltEff s) (thrustDemand s d.toVal)).y ∧
    ((generateThrustYawSetpoint s d).thr_sp.z
        = (saturateTilt (tiltEff s) (thrustDemand s d.toVal)).z →
      tiltOk s.constraints.tilt_max (generateThrustYawSetpoint s d).thr_sp) := by
  have hthr : (generateThrustYawSetpoint s d).thr_sp
      = saturateZ s (saturateTilt (tiltEff s) (thrustDemand s d.toVal)) := by
    simp [generateThrustYawSetpoint, hd]
  by_cases hlt : tiltEff s < Real.pi / 2
  · have htm : s.constraints.tilt_max < Real.pi / 2 := by
      by_contra hge
      push_neg at hge
      rw [show tiltEff s = Real.pi / 2 from min_eq_right hge] at hlt
      exact lt_irrefl _ hlt
    have haeq : tiltEff s = s.constraints.tilt_max := min_eq_left htm.le
    have htan : 0 ≤ Real.tan (tiltEff s) :=
      Real.tan_nonneg_of_nonneg_of_le_pi_div_two (haeq ▸ ht) hlt.le
    have hm : 0 ≤ |(thrustDemand s d.toVal).z| * Real.tan (tiltEff s) :=
      mul_nonneg (abs_nonneg _) htan
    have hsat : saturateTilt (tiltEff s) (thrustDemand s d.toVal)
        = scaleXY (thrustDemand s d.toVal)
            (|(thrustDemand s d.toVal).z| * Real.tan (tiltEff s)) := by
      unfold saturateTilt
      rw [if_pos hlt]
    have hz : (saturateTilt (tiltEff s) (thrustDemand s d.toVal)).z
        = (thrustDemand s d.toVal).z := by
      rw [hsat]
      exact scaleXY_z _ _
    have hbound : normXY (saturateTilt (tiltEff s) (thrustDemand s d.toVal))
        ≤ Real.tan (tiltEff s)
          * |(saturateTilt (tiltEff s) (thrustDemand s d.toVal)).z| := by
      rw [hz, mul_comm, hsat]
      exact scaleXY_norm_le _ _ hm
    refine ⟨Or.inl hbound, ?_, ?_, ?_, ?_⟩
    · rw [hsat]
      exact scaleXY_factor _ _ hm
    · rw [hthr]; rfl
    · rw [hthr]; rfl
    · intro hzeq
      have hveq : (generateThrustYawSetpoint s d).thr_sp
          = saturateTilt (tiltEff s) (thrustDemand s d.toVal) := by
        ext
        · rw [hthr]; rfl
        · rw [hthr]; rfl
        · exact hzeq
      show normXY ((generateThrustYawSetpoint s d).thr_sp)
          ≤ Real.tan (min s.constraints.tilt_max (Real.pi / 2))
            * |((generateThrustYawSetpoint s d).thr_sp).z| ∨
          Real.pi / 2 ≤ s.constraints.tilt_max
      left
      rw [hveq]
      exact hbound
  · have hge : Real.pi / 2 ≤ s.constraints.tilt_max := by
      by_contra hc
      push_neg at hc
      exact hlt (lt_of_le_of_lt (min_le_left _ _) hc)
    have hsat : saturateTilt (tiltEff s) (thrustDemand s d.toVal)
        = thrustDemand s d.toVal := by
      unfold saturateTilt
      rw [if_neg hlt]
    refine ⟨Or.inr hge, ⟨1, zero_le_one, le_refl 1, ?_⟩, ?_, ?_, ?_⟩
    · rw [hsat]
      ext <;> simp
    · rw [hthr]; rfl
    · rw [hthr]; rfl
    · intro hzeq
      exact Or.inr hge

/-- Witness for C1 at the baseline state with tilt bound pi over four. -/
theorem C1_witness :
    0 ≤ sEx.constraints.tilt_max ∧ dtOk (FloatF.val 1) ∧
    (normXY (saturateTilt (tiltEff sEx) (thrustDemand sEx (FloatF.val 1).toVal))
        ≤ Real.tan (tiltEff sEx)
          * |(saturateTilt (tiltEff sEx)
              (thrustDemand sEx (FloatF.val 1).toVal)).z| ∨
      Real.pi / 2 ≤ sEx.constraints.tilt_max) := by
  have ht : 0 ≤ sEx.constraints.tilt_max := by
    show (0:ℝ) ≤ Real.pi / 4
    linarith [Real.pi_pos]
  exact ⟨ht, dtOk_one, (C1_tilt_saturation sEx (FloatF.val 1) ht dtOk_one).1⟩

/-- C3 counterexample: at sC3 both the position setpoint and the velocity
feed-forward are set on the z axis, yet the resolved velocity target is the
P-term plus the feed-forward (two), not the clamped feed-forward value
(one). -/
theorem C3_counterexample :
    sC3.sp.pos.z.isFinite = true ∧ sC3.sp.vel.z.isFinite = true ∧
    (generateThrustYawSetpoint sC3 (FloatF.val 1)).vel_sp.z = 2 ∧
    clampR sC3.sp.vel.z.toVal (-(velMaxUp sC3)) sC3.VelMaxZ.down = 1 ∧
    ¬ ((generateThrustYawSetpoint sC3 (FloatF.val 1)).vel_sp.z
        = clampR sC3.sp.vel.z.toVal (-(velMaxUp sC3)) sC3.VelMaxZ.down) := by
  have hd := dtOk_one
  have hvt : velTarget sC3 = ⟨0, 0, 2⟩ := by
    have hn : normXY ⟨(0:ℝ), 0, 2⟩ = 0 := by
      unfold normXY
      rw [show ((0:ℝ) ^ 2 + 0 ^ 2) = 0 by norm_num]
      exact Real.sqrt_zero
    simp [velTarget, positionController, velDemand, posLoopAxis,
      interfaceMapping, resolveAxis, sC3, sEx, spUnset, FloatF.isFinite,
      FloatF.toVal, scaleXY, hn, clampR, velMaxUp]
    norm_num
  have hv : (generateThrustYawSetpoint sC3 (FloatF.val 1)).vel_sp
      = velTarget sC3 := by
    simp [generateThrustYawSetpoint, hd, sC3, sEx]
  have h2 : (generateThrustYawSetpoint sC3 (FloatF.val 1)).vel_sp.z = 2 := by
    rw [hv, hvt]
  have hcl : clampR sC3.sp.vel.z.toVal (-(velMaxUp sC3)) sC3.VelMaxZ.down
      = 1 := by
    show clampR 1 (-(min (10:ℝ) 10)) 10 = 1
    unfold clampR
    norm_num
  refine ⟨rfl, rfl, h2, hcl, ?_⟩
  rw [h2, hcl]
  norm_num


/-- C3 (amended): on every axis where both a position setpoint and a
velocity feed-forward are set, the position-loop velocity demand is the
P-term plus the feed-forward; the resolved velocity target is that demand
clamped to the configured limits: the vertical target equals the clamp of
the P-term plus the feed-forward into the up/down interval, while the
horizontal pair is scaled by one common factor between zero and one so that
its resultant magnitude never exceeds the horizontal maximum. Hence the
feed-forward is added and then clamped, never combined additively beyond
the cap: on the vertical axis, when the feed-forward alone already reaches
the downward cap and the P-term pushes the same direction, the resolved
target equals the cap, the clamped feed-forward value. The exposed
velocity setpoint of a valid non-skipped generate step is exactly this
resolved target. -/
theorem C3_feedforward_priority (s : PositionControl) (d : FloatF) :
    (s.sp.pos.x.isFinite = true → s.sp.vel.x.isFinite = true →
      (velDemand s (interfaceMapping s)).x
          = s.Pp.x * (s.sp.pos.x.toVal - s.pos.x) + s.sp.vel.x.toVal) ∧
    (s.sp.pos.y.isFinite = true → s.sp.vel.y.isFinite = true →
      (velDemand s (interfaceMapping s)).y
          = s.Pp.y * (s.sp.pos.y.toVal - s.pos.y) + s.sp.vel.y.toVal) ∧
    (s.sp.pos.z.isFinite = true → s.sp.vel.z.isFinite = true →
      (velTarget s).z
          = clampR (s.Pp.z * (s.sp.pos.z.toVal - s.pos.z) + s.sp.vel.z.toVal)
              (-(velMaxUp s)) s.VelMaxZ.down) ∧
    (0 ≤ s.VelMaxXY →
      ∃ k, 0 ≤ k ∧ k ≤ 1 ∧
        (velTarget s).x = k * (velDemand s (interfaceMapping s)).x ∧
        (velTarget s).y = k * (velDemand s (interfaceMapping s)).y ∧
        normXY (velTarget s) ≤ s.VelMaxXY) ∧
    (s.sp.pos.z.isFinite = true → s.sp.vel.z.isFinite = true →
      s.VelMaxZ.down ≤ s.sp.vel.z.toVal →
      0 ≤ s.Pp.z * (s.sp.pos.z.toVal - s.pos.z) →
      -(velMaxUp s) ≤ s.VelMaxZ.down →
      (velTarget s).z = s.VelMaxZ.down ∧
      (velTarget s).z
          = clampR s.sp.vel.z.toVal (-(velMaxUp s)) s.VelMaxZ.down) ∧
    (s.skipController = false → dtOk d →
      (generateThrustYawSetpoint s d).vel_sp = velTarget s) := by
  have hkey : s.sp.pos.z.isFinite = true → s.sp.vel.z.isFinite = true →
      (velTarget s).z
          = clampR (s.Pp.z * (s.sp.pos.z.toVal - s.pos.z) + s.sp.vel.z.toVal)
              (-(velMaxUp s)) s.VelMaxZ.down := by
    intro hz hv
    simp [velTarget, positionController, velDemand, posLoopAxis,
      interfaceMapping, resolveAxis, hz, hv]
  refine ⟨?_, ?_, hkey, ?_, ?_, ?_⟩
  · intro hx hv
    simp [velDemand, posLoopAxis, interfaceMapping, resolveAxis, hx, hv]
  · intro hy hv
    simp [velDemand, posLoopAxis, interfaceMapping, resolveAxis, hy, hv]
  · intro hm
    obtain ⟨k, hk0, hk1, heq⟩ :=
      scaleXY_factor (velDemand s (interfaceMapping s)) s.VelMaxXY hm
    refine ⟨k, hk0, hk1, ?_, ?_, ?_⟩
    · have hx : (velTarget s).x
          = (scaleXY (velDemand s (interfaceMapping s)) s.VelMaxXY).x := by
        simp [velTarget, positionController]
      rw [hx, heq]
    · have hy : (velTarget s).y
          = (scaleXY (velDemand s (interfaceMapping s)) s.VelMaxXY).y := by
        simp [velTarget, positionController]
      rw [hy, heq]
    · have hn : normXY (velTarget s)
          = normXY (scaleXY (velDemand s (interfaceMapping s)) s.VelMaxXY) := by
        have hx : (velTarget s).x
            = (scaleXY (velDemand s (interfaceMapping s)) s.VelMaxXY).x := by
          simp [velTarget, positionController]
        have hy : (velTarget s).y
            = (scaleXY (velDemand s (interfaceMapping s)) s.VelMaxXY).y := by
          simp [velTarget, positionController]
        unfold normXY
        rw [hx, hy]
      rw [hn]
      exact scaleXY_norm_le _ _ hm
  · intro hz hv hcap hp hlim
    have hsum : s.VelMaxZ.down
        ≤ s.Pp.z * (s.sp.pos.z.toVal - s.pos.z) + s.sp.vel.z.toVal := by
      linarith
    constructor
    · rw [hkey hz hv]
      exact clampR_eq_hi _ _ _ hsum hlim
    · rw [hkey hz hv, clampR_eq_hi _ _ _ hsum hlim,
        clampR_eq_hi _ _ _ hcap hlim]
  · intro hskip hd
    simp [generateThrustYawSetpoint, hd, hskip]
